import Mathlib

/-!
Verification of the ComfyUI client library (comfy_client.py).

The development shallowly embeds the core of `ComfyUIClient`:

* the completion-watching websocket loop and the history-based image
  collection of `_get_final_images`;
* the workflow construction of `generate_image`, modelled over an explicit
  heap of Python dictionaries so that `copy.deepcopy` and the in-place
  dictionary assignments of the source are represented faithfully;
* the caller-visible outcome of `generate_image`.

Server interactions (queue response, websocket messages, history record,
artifact bytes) are supplied as oracle parameters: the embedded functions
compute exactly what the client code computes from those responses.
-/

/-! ## Websocket messages and the completion-watching loop -/

/-- A parsed textual websocket message, as accessed by `_get_final_images`:
`message.get('type')`, `message.get('data', \x7b\x7d).get('node')` and
`.get('prompt_id')`.  A missing key yields `none`, matching the `None`
returned by `dict.get`. -/
structure TextMessage where
  msgType : Option String
  node : Option String
  prompt_id : Option String
deriving Repr, DecidableEq

/-- A message received on the websocket: either an opaque binary frame
(`isinstance(out, str)` is false) or a textual JSON message. -/
inductive WsMessage where
  | binary (payload : List Nat)
  | text (m : TextMessage)
deriving Repr, DecidableEq

/-- The condition on which the receive loop in `_get_final_images` breaks:
the message is textual, its type tag is "executing", `data.get('node')` is
`None`, and `data.get('prompt_id')` equals the watched prompt id. -/
def isCompletionMsg (prompt_id : String) : WsMessage → Bool
  | WsMessage.binary _ => false
  | WsMessage.text m =>
      m.msgType == some "executing" && m.node == none && m.prompt_id == some prompt_id

/-- The `while True: out = ws.recv()` loop of `_get_final_images`, run over
a stream of messages: returns the index of the message at which the loop
breaks, or `none` if no message in the stream satisfies the break
condition (the real loop would then block forever on `recv`). -/
def watchLoop (prompt_id : String) : List WsMessage → Option Nat
  | [] => none
  | m :: rest =>
      if isCompletionMsg prompt_id m then some 0
      else (watchLoop prompt_id rest).map (fun i => i + 1)

/-! ## History records and image collection -/

/-- One entry of a node-output `images` list, as read by the collection
loop: `image_data['filename']`, `image_data['subfolder']`,
`image_data['type']`. -/
structure ImageDescriptor where
  filename : String
  subfolder : String
  type : String
deriving Repr, DecidableEq

/-- One node-output object of the history `outputs` mapping.  `images` is
`none` when the key `'images'` is absent (`'images' in node_output` is
false). -/
structure NodeOutput where
  images : Option (List ImageDescriptor)
deriving Repr, DecidableEq

/-- The history record for one prompt id; `outputs` models
`history[prompt_id].get('outputs', \x7b\x7d)` as an association list in
dictionary iteration order (absence of the key collapses to `[]`). -/
structure HistoryRecord where
  outputs : List (String × NodeOutput)
deriving Repr, DecidableEq

/-- A decoded image: `Image.open(io.BytesIO(image_bytes))` is opaque to the
client, so a decoded image is identified by the bytes it was decoded
from. -/
structure PILImage where
  bytes : List Nat
deriving Repr, DecidableEq

/-- An artifact-fetch oracle: for a descriptor, `none` models `_get_image`
returning `None` (a `URLError` was caught), `some b` models a successful
read of bytes `b`. -/
abbrev FetchOracle : Type := ImageDescriptor → Option (List Nat)

/-- The body of the inner collection loop for one descriptor:
`image_bytes = self._get_image(...)`, then `if image_bytes:` appends the
decoded image.  Both a `None` result and empty bytes are falsy in Python,
so both are skipped. -/
def fetchDecode (fetch : FetchOracle) (d : ImageDescriptor) : Option PILImage :=
  match fetch d with
  | none => none
  | some b => if b = [] then none else some ⟨b⟩

/-- The inner `for image_data in node_output['images']` loop, appending to
the accumulator `images` exactly when the fetched bytes are truthy. -/
def collectNode (fetch : FetchOracle) (out : NodeOutput) (acc : List PILImage) :
    List PILImage :=
  match out.images with
  | none => acc
  | some imgs =>
      imgs.foldl (fun a d =>
        match fetchDecode fetch d with
        | none => a
        | some im => a ++ [im]) acc

/-- The collection phase of `_get_final_images`, from the parsed history
response on: `none` models `_get_history` returning `None` (transport
failure).  `if not history or prompt_id not in history: return []` treats
a missing response, an empty mapping, and an absent prompt id alike; then
the outer loop runs over the `outputs` mapping in order. -/
def collectImages (history : Option (List (String × HistoryRecord)))
    (prompt_id : String) (fetch : FetchOracle) : List PILImage :=
  match history with
  | none => []
  | some [] => []
  | some hs =>
      match hs.lookup prompt_id with
      | none => []
      | some record =>
          record.outputs.foldl (fun acc p => collectNode fetch p.2 acc) []

/-- The whole of `_get_final_images`: wait for the completion message, then
collect.  The result is `none` when the watch loop never breaks (the call
never returns). -/
def getFinalImages (messages : List WsMessage) (prompt_id : String)
    (history : Option (List (String × HistoryRecord))) (fetch : FetchOracle) :
    Option (List PILImage) :=
  match watchLoop prompt_id messages with
  | none => none
  | some _ => some (collectImages history prompt_id fetch)

/-! ## A heap of Python dictionaries

`generate_image` deep-copies `_WORKFLOW_TEMPLATE` and then mutates the
copy in place (`prompt_workflow[node]["inputs"][key] = value`).  To state
anything about mutation and aliasing we model the Python object graph
explicitly: a store of dictionaries addressed by position, with the nested
dictionaries of the template held by reference.  Leaf values (ints,
floats, strings) and the two-element edge lists `[node_id, output_index]`
are modelled as immutable values: the client never mutates an edge list,
so only dictionary identity matters. -/

/-- A Python value stored in a workflow dictionary.  Floats in the
template (`cfg = 4.0`) and the caller-supplied `cfg` are carried as
rationals; the client performs no arithmetic on them. -/
inductive PyVal where
  | vint (i : Int)
  | vrat (q : Rat)
  | vstr (s : String)
  | vedge (node : String) (idx : Nat)
  | vref (addr : Nat)
deriving Repr, DecidableEq

/-- A Python dictionary: entries in insertion order. -/
abbrev PyDict : Type := List (String × PyVal)

/-- The store: dictionary objects addressed by their index. -/
abbrev Store : Type := List PyDict

/-- Lookup `d[k]` on one dictionary (first matching entry; keys are unique
in every dictionary built here). -/
def dictGet : PyDict → String → Option PyVal
  | [], _ => none
  | (k, v) :: rest, key => if k = key then some v else dictGet rest key

/-- Assignment `d[k] = v` on one dictionary: replaces the value of an
existing key in place, otherwise appends the new key at the end. -/
def setKey : PyDict → String → PyVal → PyDict
  | [], k, v => [(k, v)]
  | (k1, v1) :: rest, k, v =>
      if k1 = k then (k1, v) :: rest else (k1, v1) :: setKey rest k v

/-- Dereference an address in the store. -/
def storeGet : Store → Nat → Option PyDict
  | [], _ => none
  | d :: rest, n => if n = 0 then some d else storeGet rest (n - 1)

/-- Replace the dictionary at an address (in-place mutation of the object
the address denotes). -/
def storeSet : Store → Nat → PyDict → Store
  | [], _, _ => []
  | d :: rest, n, nd =>
      if n = 0 then nd :: rest else d :: storeSet rest (n - 1) nd

/-- Copy the entries of a dictionary, using `dcv` to copy each value (the
recursive step of deepcopy threaded through the store). -/
def deepcopyEntries (dcv : Store → PyVal → Store × PyVal) :
    Store → List (String × PyVal) → Store × List (String × PyVal)
  | s, [] => (s, [])
  | s, (k, v) :: rest =>
      let (s1, v1) := dcv s v
      let (s2, rest1) := deepcopyEntries dcv s1 rest
      (s2, (k, v1) :: rest1)

/-- `copy.deepcopy` on a value: a reference to a dictionary allocates a
fresh copy of that dictionary (its entries copied recursively) at the end
of the store; every other value is immutable and returned as is.  Fuel
bounds the reference depth; the template is a tree of depth 2, so any fuel
of at least 3 computes the full copy. -/
def deepcopyVal : Nat → Store → PyVal → Store × PyVal
  | 0, s, v => (s, v)
  | fuel + 1, s, PyVal.vref a =>
      match storeGet s a with
      | none => (s, PyVal.vref a)
      | some d =>
          let (s1, d1) := deepcopyEntries (deepcopyVal fuel) s d
          (s1 ++ [d1], PyVal.vref s1.length)
  | _ + 1, s, v => (s, v)

/-- Follow `store[root][nodeId]["inputs"]` to the address of the inputs
dictionary of a node. -/
def inputsAddr (s : Store) (root : Nat) (nodeId : String) : Option Nat :=
  match storeGet s root with
  | none => none
  | some rootD =>
      match dictGet rootD nodeId with
      | some (PyVal.vref na) =>
          match storeGet s na with
          | none => none
          | some nodeD =>
              match dictGet nodeD "inputs" with
              | some (PyVal.vref ia) => some ia
              | _ => none
      | _ => none

/-- The in-place assignment `workflow[nodeId]["inputs"][key] = v` on the
graph rooted at `root`.  On the workflows actually built the path always
resolves; an unresolvable path (a `KeyError` in Python) leaves the store
unchanged here and never occurs in the theorems below. -/
def setInputVal (s : Store) (root : Nat) (nodeId key : String) (v : PyVal) :
    Store :=
  match inputsAddr s root nodeId with
  | none => s
  | some ia =>
      match storeGet s ia with
      | none => s
      | some inD => storeSet s ia (setKey inD key v)

/-- Read `workflow[nodeId]["inputs"][key]` on the graph rooted at
`root`. -/
def readInput (s : Store) (root : Nat) (nodeId key : String) : Option PyVal :=
  match inputsAddr s root nodeId with
  | none => none
  | some ia =>
      match storeGet s ia with
      | none => none
      | some inD => dictGet inD key

/-- Read `workflow[nodeId]["class_type"]` on the graph rooted at `root`. -/
def readClassType (s : Store) (root : Nat) (nodeId : String) : Option PyVal :=
  match storeGet s root with
  | none => none
  | some rootD =>
      match dictGet rootD nodeId with
      | some (PyVal.vref na) =>
          match storeGet s na with
          | none => none
          | some nodeD => dictGet nodeD "class_type"
      | _ => none

/-! Node ids of `_WORKFLOW_TEMPLATE` (class constants of `ComfyUIClient`). -/

def NODE_CHECKPOINT_LOADER : String := "4"
def NODE_POSITIVE_PROMPT : String := "16"
def NODE_NEGATIVE_PROMPT : String := "40"
def NODE_LATENT_IMAGE : String := "53"
def NODE_KSAMPLER : String := "3"
def NODE_SAVE_IMAGE : String := "9"

/-- `_WORKFLOW_TEMPLATE` laid out in the store.  Address 0 holds the outer
dictionary; each node dictionary and its `inputs` dictionary follow in
literal order: node "3" at 1 with inputs at 2, node "4" at 3 with inputs
at 4, node "8" at 5/6, node "9" at 7/8, node "16" at 9/10, node "40" at
11/12, node "53" at 13/14.  Entry order matches the Python dict
literals. -/
def templateStore : Store :=
  [ [("3", PyVal.vref 1), ("4", PyVal.vref 3), ("8", PyVal.vref 5),
     ("9", PyVal.vref 7), ("16", PyVal.vref 9), ("40", PyVal.vref 11),
     ("53", PyVal.vref 13)],
    [("inputs", PyVal.vref 2), ("class_type", PyVal.vstr "KSampler")],
    [("seed", PyVal.vint 0), ("steps", PyVal.vint 20), ("cfg", PyVal.vrat 4),
     ("sampler_name", PyVal.vstr "euler"),
     ("scheduler", PyVal.vstr "sgm_uniform"), ("denoise", PyVal.vint 1),
     ("model", PyVal.vedge "4" 0), ("positive", PyVal.vedge "16" 0),
     ("negative", PyVal.vedge "40" 0), ("latent_image", PyVal.vedge "53" 0)],
    [("inputs", PyVal.vref 4),
     ("class_type", PyVal.vstr "CheckpointLoaderSimple")],
    [("ckpt_name", PyVal.vstr "model.safetensors")],
    [("inputs", PyVal.vref 6), ("class_type", PyVal.vstr "VAEDecode")],
    [("samples", PyVal.vedge "3" 0), ("vae", PyVal.vedge "4" 2)],
    [("inputs", PyVal.vref 8), ("class_type", PyVal.vstr "SaveImage")],
    [("filename_prefix", PyVal.vstr "ComfyUI_API"),
     ("images", PyVal.vedge "8" 0)],
    [("inputs", PyVal.vref 10), ("class_type", PyVal.vstr "CLIPTextEncode")],
    [("text", PyVal.vstr ""), ("clip", PyVal.vedge "4" 1)],
    [("inputs", PyVal.vref 12), ("class_type", PyVal.vstr "CLIPTextEncode")],
    [("text", PyVal.vstr ""), ("clip", PyVal.vedge "4" 1)],
    [("inputs", PyVal.vref 14),
     ("class_type", PyVal.vstr "EmptySD3LatentImage")],
    [("width", PyVal.vint 1024), ("height", PyVal.vint 1024),
     ("batch_size", PyVal.vint 1)] ]

/-- The caller-supplied arguments of `generate_image` that flow into the
workflow.  `seed = none` models passing `seed=None` (the default). -/
structure GenParams where
  positive_prompt : String
  negative_prompt : String
  model_name : String
  width : Int
  height : Int
  seed : Option Int
  steps : Int
  cfg : Rat
  sampler_name : String
  scheduler : String
deriving Repr, DecidableEq

/-- Python `random.randint(a, b)` returns an integer N with a <= N <= b:
both endpoints are included (standard library documentation of the
`random` module).  This predicate characterises the values the call in
`generate_image` can produce. -/
def randintCanReturn (a b n : Int) : Prop := a ≤ n ∧ n ≤ b

instance (a b n : Int) : Decidable (randintCanReturn a b n) := by
  unfold randintCanReturn; infer_instance

/-- The seed written into the workflow:
`seed if seed is not None else random.randint(0, 1_000_000_000)`, with the
random draw supplied as the oracle `randSeed`. -/
def chosenSeed (params : GenParams) (randSeed : Int) : Int :=
  match params.seed with
  | some v => v
  | none => randSeed

/-- The workflow-construction phase of `generate_image`, starting from a
store `s` holding the template graph at address `tmplRoot`:
`prompt_workflow = copy.deepcopy(self._WORKFLOW_TEMPLATE)` followed by the
nine parameter assignments.  (The source binds
`ksampler = prompt_workflow["3"]["inputs"]` and assigns through that
alias; the alias resolves to the same inputs dictionary that
`setInputVal` resolves per assignment, so the resulting store is the
same.)  Returns the new store and the address of the copied graph. -/
def buildWorkflow (s : Store) (tmplRoot : Nat) (params : GenParams)
    (randSeed : Int) : Store × Nat :=
  let dc := deepcopyVal 4 s (PyVal.vref tmplRoot)
  let s0 := dc.1
  let wf := match dc.2 with | PyVal.vref a => a | _ => 0
  let s1 := setInputVal s0 wf NODE_CHECKPOINT_LOADER "ckpt_name"
    (PyVal.vstr params.model_name)
  let s2 := setInputVal s1 wf NODE_POSITIVE_PROMPT "text"
    (PyVal.vstr params.positive_prompt)
  let s3 := setInputVal s2 wf NODE_NEGATIVE_PROMPT "text"
    (PyVal.vstr params.negative_prompt)
  let s4 := setInputVal s3 wf NODE_LATENT_IMAGE "width"
    (PyVal.vint params.width)
  let s5 := setInputVal s4 wf NODE_LATENT_IMAGE "height"
    (PyVal.vint params.height)
  let s6 := setInputVal s5 wf NODE_KSAMPLER "seed"
    (PyVal.vint (chosenSeed params randSeed))
  let s7 := setInputVal s6 wf NODE_KSAMPLER "steps" (PyVal.vint params.steps)
  let s8 := setInputVal s7 wf NODE_KSAMPLER "cfg" (PyVal.vrat params.cfg)
  let s9 := setInputVal s8 wf NODE_KSAMPLER "sampler_name"
    (PyVal.vstr params.sampler_name)
  let s10 := setInputVal s9 wf NODE_KSAMPLER "scheduler"
    (PyVal.vstr params.scheduler)
  (s10, wf)

/-! ## The orchestration of `generate_image`

After building the workflow, `generate_image` queues it, waits for
completion, collects the images, saves the first one and returns a
boolean.  The server responses are oracles:

* `queueResp` models the outcome of `_queue_prompt`: `none` for a `None`
  return (transport failure), `some none` for a parsed response that is
  falsy or lacks the key `prompt_id`, and `some (some pid)` for a response
  carrying prompt id `pid`;
* `messages`, `history` and `fetch` feed `_get_final_images` as above.

The caller-visible outcome is the returned boolean together with the
image saved to `output_path` (the head of the collected list), and `none`
when the call never returns because the watch loop never breaks. -/

def generate_image (params : GenParams) (randSeed : Int)
    (queueResp : Option (Option String)) (messages : List WsMessage)
    (history : Option (List (String × HistoryRecord))) (fetch : FetchOracle) :
    Option (Bool × Option PILImage) :=
  let _workflow := buildWorkflow templateStore 0 params randSeed
  match queueResp with
  | none => some (false, none)
  | some none => some (false, none)
  | some (some prompt_id) =>
      match getFinalImages messages prompt_id history fetch with
      | none => none
      | some [] => some (false, none)
      | some (im :: _) => some (true, some im)

/-- Build the workflow twice from the same template, as two successive
calls of `generate_image` on one client do: the second deep copy starts
from the store left by the first build.  Returns the final store and the
addresses of the two built graphs. -/
def buildTwice (p1 p2 : GenParams) (r1 r2 : Int) : Store × Nat × Nat :=
  let b1 := buildWorkflow templateStore 0 p1 r1
  let b2 := buildWorkflow b1.1 0 p2 r2
  (b2.1, b1.2, b2.2)

/-- Concrete generation parameters with `seed=None`, used to instantiate
the general theorems. -/
def exampleParams : GenParams :=
  ⟨"p", "n", "model.safetensors", 1024, 1024, none, 20, 4, "euler",
   "sgm_uniform"⟩

/-- A second set of concrete parameters, differing from `exampleParams`
in every parameterized slot. -/
def exampleParams2 : GenParams :=
  ⟨"q", "r", "other.safetensors", 512, 768, some 11, 30, 7, "ddim",
   "karras"⟩

/-- The fifteen dictionaries that `copy.deepcopy` allocates when copying
the template out of a store whose next free address is `base`: for each
node, the copied inputs dictionary followed by the copied node dictionary
(in template literal order), then the copied outer dictionary at address
`base + 14`.  Proved equal to the deepcopy computation in
`deepcopyVal_of_prefix15` and `deepcopyVal_of_prefix30` below. -/
def templateCopyAt (base : Nat) : Store :=
  [ [("seed", PyVal.vint 0), ("steps", PyVal.vint 20), ("cfg", PyVal.vrat 4),
     ("sampler_name", PyVal.vstr "euler"),
     ("scheduler", PyVal.vstr "sgm_uniform"), ("denoise", PyVal.vint 1),
     ("model", PyVal.vedge "4" 0), ("positive", PyVal.vedge "16" 0),
     ("negative", PyVal.vedge "40" 0), ("latent_image", PyVal.vedge "53" 0)],
    [("inputs", PyVal.vref base), ("class_type", PyVal.vstr "KSampler")],
    [("ckpt_name", PyVal.vstr "model.safetensors")],
    [("inputs", PyVal.vref (base + 2)),
     ("class_type", PyVal.vstr "CheckpointLoaderSimple")],
    [("samples", PyVal.vedge "3" 0), ("vae", PyVal.vedge "4" 2)],
    [("inputs", PyVal.vref (base + 4)), ("class_type", PyVal.vstr "VAEDecode")],
    [("filename_prefix", PyVal.vstr "ComfyUI_API"),
     ("images", PyVal.vedge "8" 0)],
    [("inputs", PyVal.vref (base + 6)), ("class_type", PyVal.vstr "SaveImage")],
    [("text", PyVal.vstr ""), ("clip", PyVal.vedge "4" 1)],
    [("inputs", PyVal.vref (base + 8)),
     ("class_type", PyVal.vstr "CLIPTextEncode")],
    [("text", PyVal.vstr ""), ("clip", PyVal.vedge "4" 1)],
    [("inputs", PyVal.vref (base + 10)),
     ("class_type", PyVal.vstr "CLIPTextEncode")],
    [("width", PyVal.vint 1024), ("height", PyVal.vint 1024),
     ("batch_size", PyVal.vint 1)],
    [("inputs", PyVal.vref (base + 12)),
     ("class_type", PyVal.vstr "EmptySD3LatentImage")],
    [("3", PyVal.vref (base + 1)), ("4", PyVal.vref (base + 3)),
     ("8", PyVal.vref (base + 5)), ("9", PyVal.vref (base + 7)),
     ("16", PyVal.vref (base + 9)), ("40", PyVal.vref (base + 11)),
     ("53", PyVal.vref (base + 13))] ]

/-- The copied graph after the nine parameter assignments of
`generate_image`: `templateCopyAt base` with the parameterized slots
overwritten from the call arguments.  Proved equal to the build
computation in `buildWorkflow_eval15` and `buildWorkflow_eval30` below. -/
def builtCopyAt (base : Nat) (p : GenParams) (r : Int) : Store :=
  [ [("seed", PyVal.vint (chosenSeed p r)), ("steps", PyVal.vint p.steps),
     ("cfg", PyVal.vrat p.cfg), ("sampler_name", PyVal.vstr p.sampler_name),
     ("scheduler", PyVal.vstr p.scheduler), ("denoise", PyVal.vint 1),
     ("model", PyVal.vedge "4" 0), ("positive", PyVal.vedge "16" 0),
     ("negative", PyVal.vedge "40" 0), ("latent_image", PyVal.vedge "53" 0)],
    [("inputs", PyVal.vref base), ("class_type", PyVal.vstr "KSampler")],
    [("ckpt_name", PyVal.vstr p.model_name)],
    [("inputs", PyVal.vref (base + 2)),
     ("class_type", PyVal.vstr "CheckpointLoaderSimple")],
    [("samples", PyVal.vedge "3" 0), ("vae", PyVal.vedge "4" 2)],
    [("inputs", PyVal.vref (base + 4)), ("class_type", PyVal.vstr "VAEDecode")],
    [("filename_prefix", PyVal.vstr "ComfyUI_API"),
     ("images", PyVal.vedge "8" 0)],
    [("inputs", PyVal.vref (base + 6)), ("class_type", PyVal.vstr "SaveImage")],
    [("text", PyVal.vstr p.positive_prompt), ("clip", PyVal.vedge "4" 1)],
    [("inputs", PyVal.vref (base + 8)),
     ("class_type", PyVal.vstr "CLIPTextEncode")],
    [("text", PyVal.vstr p.negative_prompt), ("clip", PyVal.vedge "4" 1)],
    [("inputs", PyVal.vref (base + 10)),
     ("class_type", PyVal.vstr "CLIPTextEncode")],
    [("width", PyVal.vint p.width), ("height", PyVal.vint p.height),
     ("batch_size", PyVal.vint 1)],
    [("inputs", PyVal.vref (base + 12)),
     ("class_type", PyVal.vstr "EmptySD3LatentImage")],
    [("3", PyVal.vref (base + 1)), ("4", PyVal.vref (base + 3)),
     ("8", PyVal.vref (base + 5)), ("9", PyVal.vref (base + 7)),
     ("16", PyVal.vref (base + 9)), ("40", PyVal.vref (base + 11)),
     ("53", PyVal.vref (base + 13))] ]

/-! ## Theorems about the completion watcher -/

/-- The watch loop breaks exactly at the first message satisfying the
break condition: every earlier message fails it, and the message at the
returned index satisfies it. -/
lemma watchLoop_cons (prompt_id : String) (m : WsMessage)
    (rest : List WsMessage) :
    watchLoop prompt_id (m :: rest) =
      if isCompletionMsg prompt_id m then some 0
      else (watchLoop prompt_id rest).map (fun i => i + 1) := rfl

lemma watchLoop_spec (prompt_id : String) :
    ∀ (msgs : List WsMessage) (i : Nat),
      watchLoop prompt_id msgs = some i ↔
        (∃ m, msgs.get? i = some m ∧ isCompletionMsg prompt_id m = true) ∧
        ∀ j, j < i → ∀ m, msgs.get? j = some m →
          isCompletionMsg prompt_id m = false := by
  intro msgs
  induction msgs with
  | nil =>
      intro i
      simp [watchLoop]
  | cons m rest ih =>
      intro i
      by_cases h : isCompletionMsg prompt_id m = true
      · constructor
        · intro hw
          rw [watchLoop_cons, if_pos h] at hw
          have hi : i = 0 := by
            cases hw
            rfl
          subst hi
          exact ⟨⟨m, by simp, h⟩, fun j hj => by omega⟩
        · rintro ⟨⟨m', hm', hc'⟩, hfirst⟩
          cases i with
          | zero => rw [watchLoop_cons, if_pos h]
          | succ k =>
              have := hfirst 0 (Nat.succ_pos k) m (by simp)
              rw [this] at h
              exact absurd h (by simp)
      · have h' : isCompletionMsg prompt_id m = false := by
          simpa using h
        constructor
        · intro hw
          rw [watchLoop_cons, if_neg h, Option.map_eq_some'] at hw
          obtain ⟨k, hk, hki⟩ := hw
          obtain ⟨⟨m', hm', hc'⟩, hfirst⟩ := (ih k).mp hk
          subst hki
          refine ⟨⟨m', by simpa using hm', hc'⟩, ?_⟩
          intro j hj m'' hm''
          cases j with
          | zero =>
              simp at hm''
              subst hm''
              exact h'
          | succ j' =>
              have hj' : j' < k := by omega
              exact hfirst j' hj' m'' (by simpa using hm'')
        · rintro ⟨⟨m', hm', hc'⟩, hfirst⟩
          cases i with
          | zero =>
              simp at hm'
              subst hm'
              rw [hc'] at h'
              exact absurd h' (by simp)
          | succ k =>
              have hrest : watchLoop prompt_id rest = some k := by
                refine (ih k).mpr ⟨⟨m', by simpa using hm', hc'⟩, ?_⟩
                intro j hj m'' hm''
                exact hfirst (j + 1) (by omega) m'' (by simpa using hm'')
              rw [watchLoop_cons, if_neg h, hrest]
              rfl

/-- C2.  The completion watcher ignores every binary message, every
"executing" event whose node field is non-null and every event whose
prompt id differs from the watched one; it returns exactly at the first
message with type "executing", null node and matching prompt id.  On the
three-message scenario of the spec, watched for job "X", the loop breaks
exactly at the third message (index 2). -/
theorem C2_completion_watcher :
    (∀ (prompt_id : String) (msgs : List WsMessage) (i : Nat),
      watchLoop prompt_id msgs = some i ↔
        (∃ m, msgs.get? i = some m ∧ isCompletionMsg prompt_id m = true) ∧
        ∀ j, j < i → ∀ m, msgs.get? j = some m →
          isCompletionMsg prompt_id m = false) ∧
    (∀ (prompt_id : String) (payload : List Nat),
      isCompletionMsg prompt_id (WsMessage.binary payload) = false) ∧
    (∀ (prompt_id : String) (m : TextMessage), m.node ≠ none →
      isCompletionMsg prompt_id (WsMessage.text m) = false) ∧
    (∀ (prompt_id : String) (m : TextMessage), m.prompt_id ≠ some prompt_id →
      isCompletionMsg prompt_id (WsMessage.text m) = false) ∧
    watchLoop "X"
      [WsMessage.text ⟨some "executing", some "3", some "X"⟩,
       WsMessage.text ⟨some "executing", none, some "Y"⟩,
       WsMessage.text ⟨some "executing", none, some "X"⟩] = some 2 := by
  refine ⟨watchLoop_spec, ?_, ?_, ?_, by decide⟩
  · intro prompt_id payload
    rfl
  · intro prompt_id m hm
    simp [isCompletionMsg, hm]
  · intro prompt_id m hm
    simp [isCompletionMsg, hm]

/-! ## Theorems about image collection -/

/-- The inner descriptor loop appends, in order, the decoded images of
exactly those descriptors whose fetch is truthy. -/
lemma collectFold_eq (fetch : FetchOracle) (imgs : List ImageDescriptor) :
    ∀ acc : List PILImage,
      imgs.foldl (fun a d =>
        match fetchDecode fetch d with
        | none => a
        | some im => a ++ [im]) acc = acc ++ imgs.filterMap (fetchDecode fetch) := by
  induction imgs with
  | nil => intro acc; simp
  | cons d rest ih =>
      intro acc
      rw [List.foldl_cons, List.filterMap_cons]
      cases hd : fetchDecode fetch d with
      | none => simpa [hd] using ih acc
      | some im => simp [hd, ih (acc ++ [im])]

/-- One node contributes its in-order successfully fetched images, after
the accumulator. -/
lemma collectNode_eq (fetch : FetchOracle) (out : NodeOutput)
    (acc : List PILImage) :
    collectNode fetch out acc =
      acc ++ (out.images.getD []).filterMap (fetchDecode fetch) := by
  cases hout : out.images with
  | none => simp [collectNode, hout]
  | some imgs => simp [collectNode, hout, collectFold_eq]

/-- The node loop accumulates node contributions in iteration order. -/
lemma collectOuter_eq (fetch : FetchOracle)
    (outputs : List (String × NodeOutput)) :
    ∀ acc : List PILImage,
      outputs.foldl (fun acc p => collectNode fetch p.2 acc) acc =
        acc ++ outputs.flatMap (fun p =>
          (p.2.images.getD []).filterMap (fetchDecode fetch)) := by
  induction outputs with
  | nil => intro acc; simp
  | cons p rest ih =>
      intro acc
      rw [List.foldl_cons, collectNode_eq, ih, List.flatMap_cons,
        List.append_assoc]

/-- C9.  When the history holds a record for the prompt id, the collected
images are exactly the in-order concatenation, over the nodes of the
record in iteration order, of each node's successfully fetched images in
list order: no reordering, deduplication or sorting by any other key. -/
theorem C9_collection_order (hs : List (String × HistoryRecord))
    (prompt_id : String) (record : HistoryRecord) (fetch : FetchOracle)
    (hlook : List.lookup prompt_id hs = some record) :
    collectImages (some hs) prompt_id fetch =
      record.outputs.flatMap (fun p =>
        (p.2.images.getD []).filterMap (fetchDecode fetch)) := by
  cases hs with
  | nil => simp [List.lookup] at hlook
  | cons h t =>
      show (match List.lookup prompt_id (h :: t) with
        | none => ([] : List PILImage)
        | some record =>
            record.outputs.foldl
              (fun acc (p : String × NodeOutput) => collectNode fetch p.2 acc)
              []) = _
      rw [hlook]
      simpa using collectOuter_eq fetch record.outputs []

/-- Witness for C9: a two-node record whose images come back in node
iteration order, then image list order. -/
theorem C9_collection_order_witness :
    collectImages
      (some [("7", ⟨[("9", ⟨some [⟨"a.png", "", "output"⟩,
                               ⟨"b.png", "", "output"⟩]⟩),
                     ("12", ⟨some [⟨"c.png", "", "output"⟩]⟩)]⟩)])
      "7" (fun d => some [d.filename.length]) =
      [⟨[5]⟩, ⟨[5]⟩, ⟨[5]⟩] := by
  rw [C9_collection_order
    [("7", ⟨[("9", ⟨some [⟨"a.png", "", "output"⟩, ⟨"b.png", "", "output"⟩]⟩),
             ("12", ⟨some [⟨"c.png", "", "output"⟩]⟩)]⟩)]
    "7" ⟨[("9", ⟨some [⟨"a.png", "", "output"⟩, ⟨"b.png", "", "output"⟩]⟩),
          ("12", ⟨some [⟨"c.png", "", "output"⟩]⟩)]⟩
    (fun d => some [d.filename.length]) (by decide)]
  decide

/-- C7.  A fetch failure for one of two descriptors does not abort
collection: whichever of the two descriptors fails, the returned sequence
is exactly the one successfully fetched and decoded image. -/
theorem C7_partial_fetch_failure (prompt_id nodeId : String)
    (d1 d2 : ImageDescriptor) (fetch : FetchOracle) (b : List Nat)
    (h1 : fetch d1 = none) (h2 : fetch d2 = some b) (hb : b ≠ []) :
    collectImages (some [(prompt_id, ⟨[(nodeId, ⟨some [d1, d2]⟩)]⟩)])
        prompt_id fetch = [⟨b⟩] ∧
    collectImages (some [(prompt_id, ⟨[(nodeId, ⟨some [d2, d1]⟩)]⟩)])
        prompt_id fetch = [⟨b⟩] := by
  constructor <;>
    simp [collectImages, List.lookup, collectNode, fetchDecode, h1, h2, hb]

/-- Witness for C7: a concrete record with one failing and one succeeding
descriptor yields exactly the one decoded image. -/
theorem C7_partial_fetch_failure_witness :
    collectImages
      (some [("J", ⟨[("9", ⟨some [⟨"a.png", "", "output"⟩,
                                  ⟨"b.png", "", "output"⟩]⟩)]⟩)])
      "J" (fun d => if d.filename = "b.png" then some [7] else none) =
      [⟨[7]⟩] :=
  (C7_partial_fetch_failure "J" "9" ⟨"a.png", "", "output"⟩
    ⟨"b.png", "", "output"⟩
    (fun d => if d.filename = "b.png" then some [7] else none) [7]
    (by decide) (by decide) (by decide)).1

/-- C8.  When the history response is missing (transport failure), when it
is empty, or when it holds no record for the prompt id, collection returns
the empty sequence; and the orchestrating call then returns normally with
the failure boolean rather than raising. -/
theorem C8_history_unavailable :
    (∀ (prompt_id : String) (fetch : FetchOracle),
      collectImages none prompt_id fetch = []) ∧
    (∀ (prompt_id : String) (fetch : FetchOracle)
      (hs : List (String × HistoryRecord)),
      List.lookup prompt_id hs = none →
      collectImages (some hs) prompt_id fetch = []) ∧
    (∀ (params : GenParams) (randSeed : Int) (prompt_id : String)
      (msgs : List WsMessage) (fetch : FetchOracle) (i : Nat),
      watchLoop prompt_id msgs = some i →
      generate_image params randSeed (some (some prompt_id)) msgs none fetch =
        some (false, none)) := by
  refine ⟨fun _ _ => rfl, ?_, ?_⟩
  · intro prompt_id fetch hs hlook
    cases hs with
    | nil => rfl
    | cons h t =>
        show (match List.lookup prompt_id (h :: t) with
          | none => ([] : List PILImage)
          | some record =>
              record.outputs.foldl
                (fun acc (p : String × NodeOutput) => collectNode fetch p.2 acc)
                []) = _
        rw [hlook]
  · intro params randSeed prompt_id msgs fetch i hw
    simp [generate_image, getFinalImages, hw, collectImages]

/-- Witness for C8: concrete empty-history scenarios, through the general
theorem. -/
theorem C8_history_unavailable_witness :
    collectImages (some [("other", ⟨[]⟩)]) "J" (fun _ => none) = [] ∧
    generate_image ⟨"p", "n", "m", 1024, 1024, none, 20, 4, "euler",
        "sgm_uniform"⟩ 5 (some (some "J"))
        [WsMessage.text ⟨some "executing", none, some "J"⟩] none
        (fun _ => none) = some (false, none) :=
  ⟨C8_history_unavailable.2.1 "J" (fun _ => none) [("other", ⟨[]⟩)] (by decide),
   C8_history_unavailable.2.2 ⟨"p", "n", "m", 1024, 1024, none, 20, 4,
      "euler", "sgm_uniform"⟩ 5 "J"
      [WsMessage.text ⟨some "executing", none, some "J"⟩] (fun _ => none) 0
      (by decide)⟩

/-- C1 evaluation.  The collection loop of `_get_final_images` applies no
storage-class filter: a history record with one descriptor of class
"output" and one of class "preview" yields two decoded images, the
preview included, where the spec requires exactly one. -/
theorem C1_no_storage_class_filter :
    collectImages
        (some [("J", ⟨[("9", ⟨some [⟨"a.png", "", "output"⟩,
                                    ⟨"b.png", "", "preview"⟩]⟩)]⟩)])
        "J" (fun d => if d.type = "output" then some [1] else some [2]) =
      [⟨[1]⟩, ⟨[2]⟩] ∧
    (collectImages
        (some [("J", ⟨[("9", ⟨some [⟨"a.png", "", "output"⟩,
                                    ⟨"b.png", "", "preview"⟩]⟩)]⟩)])
        "J" (fun d => if d.type = "output" then some [1] else some [2])).length
      ≠ 1 := by
  constructor
  · decide
  · decide

/-- Witness for C2: the watcher theorem applied to the concrete
three-message stream of the spec scenario. -/
theorem C2_completion_watcher_witness :
    (∃ m,
      [WsMessage.text ⟨some "executing", some "3", some "X"⟩,
       WsMessage.text ⟨some "executing", none, some "Y"⟩,
       WsMessage.text ⟨some "executing", none, some "X"⟩].get? 2 = some m ∧
      isCompletionMsg "X" m = true) ∧
    isCompletionMsg "X"
      (WsMessage.text ⟨some "executing", some "3", some "X"⟩) = false ∧
    isCompletionMsg "X"
      (WsMessage.text ⟨some "executing", none, some "Y"⟩) = false := by
  refine ⟨(C2_completion_watcher.1 "X" _ 2 |>.mp C2_completion_watcher.2.2.2.2).1,
    C2_completion_watcher.2.2.1 "X" ⟨some "executing", some "3", some "X"⟩ (by decide),
    C2_completion_watcher.2.2.2.1 "X" ⟨some "executing", none, some "Y"⟩ (by decide)⟩

/-! ## Store algebra and evaluation of the workflow builder -/

/-- Dereference distributes over store concatenation. -/
lemma storeGet_append (s t : Store) (a : Nat) :
    storeGet (s ++ t) a =
      if a < s.length then storeGet s a else storeGet t (a - s.length) := by
  induction s generalizing a with
  | nil => simp [storeGet]
  | cons e rest ih =>
      by_cases ha : a = 0
      · subst ha
        simp [storeGet]
      · simp [storeGet, ha, ih]
        have h1 : (a < rest.length + 1) = (a - 1 < rest.length) :=
          propext ⟨fun h => by omega, fun h => by omega⟩
        have h2 : a - 1 - rest.length = a - (rest.length + 1) := by omega
        simp [h1, h2]

/-- An in-place update beyond a prefix lands in the suffix. -/
lemma storeSet_append_right (s t : Store) (i : Nat) (d : PyDict)
    (h : s.length ≤ i) :
    storeSet (s ++ t) i d = s ++ storeSet t (i - s.length) d := by
  induction s generalizing i with
  | nil => simp
  | cons e rest ih =>
      have hi : i ≠ 0 := by
        simp at h
        omega
      simp only [List.cons_append, storeSet, if_neg hi, List.append_eq]
      rw [ih (i - 1) (by simp at h ⊢; omega)]
      have heq : i - 1 - rest.length = i - (rest.length + 1) := by omega
      rw [List.length_cons, heq]

/-- Dereference below `n` only sees the first `n` objects. -/
lemma storeGet_eq_of_take (s : Store) (n a : Nat) (h : a < n) :
    storeGet s a = storeGet (s.take n) a := by
  induction s generalizing n a with
  | nil => simp
  | cons e rest ih =>
      obtain ⟨n1, rfl⟩ : ∃ n1, n = n1 + 1 := ⟨n - 1, by omega⟩
      by_cases ha : a = 0
      · subst ha
        simp [storeGet]
      · simp [storeGet, ha]
        exact ih n1 (a - 1) (by omega)

lemma lenTmpl : templateStore.length = 15 := by decide

lemma takeTmpl : templateStore.take 15 = templateStore := by decide

lemma lenBuiltCopy (base : Nat) (p : GenParams) (r : Int) :
    (builtCopyAt base p r).length = 15 := rfl

set_option maxHeartbeats 1000000 in
/-- Deep-copying the template graph out of a 15-object store whose objects
are the template allocates the fifteen copied dictionaries after it. -/
lemma deepcopyVal_of_prefix15 (s : Store) (htake : s.take 15 = templateStore)
    (hlen : s.length = 15) :
    deepcopyVal 4 s (PyVal.vref 0) =
      (s ++ templateCopyAt 15, PyVal.vref 29) := by
  have g : ∀ a, a < 15 → storeGet s a = storeGet templateStore a := by
    intro a ha
    rw [storeGet_eq_of_take s 15 a ha, htake]
  have g0 := g 0 (by omega)
  have g1 := g 1 (by omega)
  have g2 := g 2 (by omega)
  have g3 := g 3 (by omega)
  have g4 := g 4 (by omega)
  have g5 := g 5 (by omega)
  have g6 := g 6 (by omega)
  have g7 := g 7 (by omega)
  have g8 := g 8 (by omega)
  have g9 := g 9 (by omega)
  have g10 := g 10 (by omega)
  have g11 := g 11 (by omega)
  have g12 := g 12 (by omega)
  have g13 := g 13 (by omega)
  have g14 := g 14 (by omega)
  simp [deepcopyVal, deepcopyEntries, storeGet_append, hlen, templateCopyAt,
    templateStore, storeGet, dictGet,
    g0, g1, g2, g3, g4, g5, g6, g7, g8, g9, g10, g11, g12, g13, g14]

set_option maxHeartbeats 1000000 in
/-- Deep-copying the template graph out of a 30-object store that begins
with the template allocates the fifteen copied dictionaries after it. -/
lemma deepcopyVal_of_prefix30 (s : Store) (htake : s.take 15 = templateStore)
    (hlen : s.length = 30) :
    deepcopyVal 4 s (PyVal.vref 0) =
      (s ++ templateCopyAt 30, PyVal.vref 44) := by
  have g : ∀ a, a < 15 → storeGet s a = storeGet templateStore a := by
    intro a ha
    rw [storeGet_eq_of_take s 15 a ha, htake]
  have g0 := g 0 (by omega)
  have g1 := g 1 (by omega)
  have g2 := g 2 (by omega)
  have g3 := g 3 (by omega)
  have g4 := g 4 (by omega)
  have g5 := g 5 (by omega)
  have g6 := g 6 (by omega)
  have g7 := g 7 (by omega)
  have g8 := g 8 (by omega)
  have g9 := g 9 (by omega)
  have g10 := g 10 (by omega)
  have g11 := g 11 (by omega)
  have g12 := g 12 (by omega)
  have g13 := g 13 (by omega)
  have g14 := g 14 (by omega)
  simp [deepcopyVal, deepcopyEntries, storeGet_append, hlen, templateCopyAt,
    templateStore, storeGet, dictGet,
    g0, g1, g2, g3, g4, g5, g6, g7, g8, g9, g10, g11, g12, g13, g14]

set_option maxHeartbeats 1000000 in
/-- The workflow build evaluated over a 15-object template store: the copy
is appended and the nine assignments hit only the copy. -/
lemma buildWorkflow_eval15 (s : Store) (htake : s.take 15 = templateStore)
    (hlen : s.length = 15) (p : GenParams) (r : Int) :
    buildWorkflow s 0 p r = (s ++ builtCopyAt 15 p r, 29) := by
  simp only [buildWorkflow]
  rw [deepcopyVal_of_prefix15 s htake hlen]
  simp [setInputVal, inputsAddr, storeGet_append, storeGet, dictGet, setKey,
    storeSet_append_right, storeSet, hlen, templateCopyAt, builtCopyAt,
    NODE_CHECKPOINT_LOADER, NODE_POSITIVE_PROMPT, NODE_NEGATIVE_PROMPT,
    NODE_LATENT_IMAGE, NODE_KSAMPLER]

set_option maxHeartbeats 1000000 in
/-- The workflow build evaluated over a 30-object store beginning with the
template: the copy is appended at 30 and the nine assignments hit only the
copy. -/
lemma buildWorkflow_eval30 (s : Store) (htake : s.take 15 = templateStore)
    (hlen : s.length = 30) (p : GenParams) (r : Int) :
    buildWorkflow s 0 p r = (s ++ builtCopyAt 30 p r, 44) := by
  simp only [buildWorkflow]
  rw [deepcopyVal_of_prefix30 s htake hlen]
  simp [setInputVal, inputsAddr, storeGet_append, storeGet, dictGet, setKey,
    storeSet_append_right, storeSet, hlen, templateCopyAt, builtCopyAt,
    NODE_CHECKPOINT_LOADER, NODE_POSITIVE_PROMPT, NODE_NEGATIVE_PROMPT,
    NODE_LATENT_IMAGE, NODE_KSAMPLER]

/-- The workflow build of one `generate_image` call, from the template. -/
lemma build1_eval (p : GenParams) (r : Int) :
    buildWorkflow templateStore 0 p r =
      (templateStore ++ builtCopyAt 15 p r, 29) :=
  buildWorkflow_eval15 templateStore takeTmpl lenTmpl p r

lemma lenBuilt1 (p : GenParams) (r : Int) :
    (templateStore ++ builtCopyAt 15 p r).length = 30 := by
  simp [lenTmpl, lenBuiltCopy]

lemma takeTmplAppend (t : Store) :
    (templateStore ++ t).take 15 = templateStore := by
  have h : (15 : Nat) = templateStore.length + 0 := by rw [lenTmpl]
  rw [h, List.take_append]
  simp

/-- Two successive builds on one heap: the graphs land at 29 and 44, the
template region stays first. -/
lemma buildTwice_eval (p1 p2 : GenParams) (r1 r2 : Int) :
    buildTwice p1 p2 r1 r2 =
      ((templateStore ++ builtCopyAt 15 p1 r1) ++ builtCopyAt 30 p2 r2,
       29, 44) := by
  simp only [buildTwice, build1_eval]
  rw [buildWorkflow_eval30 (templateStore ++ builtCopyAt 15 p1 r1)
    (takeTmplAppend _) (lenBuilt1 p1 r1) p2 r2]

/-! ## Theorems about the workflow builder and the orchestrator -/

/-- Counterexample for C3.  Python `random.randint(0, 1_000_000_000)` can
return `1_000_000_000` itself (both endpoints included), and that value is
then recorded as the seed of the built job graph, so not every possible
recorded seed is strictly below `1_000_000_000`: the specified half-open
range `[0, 1_000_000_000)` is wrong at its upper endpoint. -/
theorem C3_seed_range_counterexample :
    randintCanReturn 0 1000000000 1000000000 ∧
    readInput (buildWorkflow templateStore 0 exampleParams 1000000000).1
      (buildWorkflow templateStore 0 exampleParams 1000000000).2 "3" "seed" =
      some (PyVal.vint 1000000000) ∧
    ¬((1000000000 : Int) < 1000000000) := by
  refine ⟨⟨by norm_num, le_refl _⟩, ?_, by norm_num⟩
  rw [build1_eval]
  decide

/-- C3, amended.  When the seed parameter is unset, the seed recorded in
the built job graph is the value drawn by `random.randint(0,
1_000_000_000)`, which lies in the closed range `[0, 1_000_000_000]` (the
upper endpoint included). -/
theorem C3_seed_range (p : GenParams) (r : Int) (hseed : p.seed = none)
    (hr : randintCanReturn 0 1000000000 r) :
    readInput (buildWorkflow templateStore 0 p r).1
      (buildWorkflow templateStore 0 p r).2 "3" "seed" =
      some (PyVal.vint r) ∧
    0 ≤ r ∧ r ≤ 1000000000 := by
  refine ⟨?_, hr.1, hr.2⟩
  rw [build1_eval]
  simp [readInput, inputsAddr, storeGet_append, storeGet, dictGet, lenTmpl,
    templateStore, builtCopyAt, chosenSeed, hseed]

/-- Witness for C3: the amended theorem at a concrete draw. -/
theorem C3_seed_range_witness :
    readInput (buildWorkflow templateStore 0 exampleParams 123).1
      (buildWorkflow templateStore 0 exampleParams 123).2 "3" "seed" =
      some (PyVal.vint 123) ∧
    (0 : Int) ≤ 123 ∧ (123 : Int) ≤ 1000000000 :=
  C3_seed_range exampleParams 123 rfl ⟨by norm_num, by norm_num⟩

/-- Counterexample for C4.  Two calls that draw different random seeds (5
and 7), with identical server responses, have identical caller-visible
outcomes: the generated seed is not recorded anywhere the caller can
observe it after the call. -/
theorem C4_seed_not_observable_counterexample :
    (5 : Int) ≠ 7 ∧
    generate_image exampleParams 5 (some (some "J"))
        [WsMessage.text ⟨some "executing", none, some "J"⟩] none
        (fun _ => none) =
      generate_image exampleParams 7 (some (some "J"))
        [WsMessage.text ⟨some "executing", none, some "J"⟩] none
        (fun _ => none) :=
  ⟨by norm_num, rfl⟩

/-- C4, amended.  When the seed parameter is unset, the drawn seed is
written into the sampler seed input of the submitted job graph, but it is
recorded nowhere else: the caller-visible outcome of `generate_image` (the
returned boolean and the saved image) is independent of which seed was
drawn, so the caller cannot learn the seed from the call. -/
theorem C4_seed_recorded_in_graph_only (p : GenParams) (r1 r2 : Int)
    (hseed : p.seed = none) (queueResp : Option (Option String))
    (msgs : List WsMessage) (history : Option (List (String × HistoryRecord)))
    (fetch : FetchOracle) :
    readInput (buildWorkflow templateStore 0 p r1).1
      (buildWorkflow templateStore 0 p r1).2 "3" "seed" =
      some (PyVal.vint r1) ∧
    generate_image p r1 queueResp msgs history fetch =
      generate_image p r2 queueResp msgs history fetch := by
  constructor
  · rw [build1_eval]
    simp [readInput, inputsAddr, storeGet_append, storeGet, dictGet, lenTmpl,
      templateStore, builtCopyAt, chosenSeed, hseed]
  · rfl

/-- Witness for C4: the amended theorem at concrete inputs. -/
theorem C4_seed_recorded_in_graph_only_witness :
    readInput (buildWorkflow templateStore 0 exampleParams 5).1
      (buildWorkflow templateStore 0 exampleParams 5).2 "3" "seed" =
      some (PyVal.vint 5) ∧
    generate_image exampleParams 5 (some (some "J"))
        [WsMessage.text ⟨some "executing", none, some "J"⟩] none
        (fun _ => none) =
      generate_image exampleParams 9 (some (some "J"))
        [WsMessage.text ⟨some "executing", none, some "J"⟩] none
        (fun _ => none) :=
  C4_seed_recorded_in_graph_only exampleParams 5 9 rfl (some (some "J"))
    [WsMessage.text ⟨some "executing", none, some "J"⟩] none (fun _ => none)

/-- Counterexample for C5.  The call maps both failure modes to the same
caller-visible result `some (false, none)`: a queue submission failure
("the system could not complete the workflow") and a completed run whose
history yields no images ("workflow completed but no images were
produced") are indistinguishable to the caller. -/
theorem C5_failures_indistinguishable_counterexample :
    generate_image exampleParams 0 none [] none (fun _ => none) =
      some (false, none) ∧
    generate_image exampleParams 0 (some (some "J"))
        [WsMessage.text ⟨some "executing", none, some "J"⟩]
        (some [("J", ⟨[]⟩)]) (fun _ => none) = some (false, none) ∧
    generate_image exampleParams 0 none [] none (fun _ => none) =
      generate_image exampleParams 0 (some (some "J"))
        [WsMessage.text ⟨some "executing", none, some "J"⟩]
        (some [("J", ⟨[]⟩)]) (fun _ => none) := by
  refine ⟨rfl, by decide, by decide⟩

/-- C5, amended.  `generate_image` returns `False` in every one of these
cases — queue transport failure, a queue response without a prompt id, and
a completed workflow whose collection comes back empty — with no typed
error distinguishing them; only an image-bearing run returns `True`. -/
theorem C5_failure_modes_collapse :
    (∀ (p : GenParams) (r : Int) (msgs : List WsMessage)
      (history : Option (List (String × HistoryRecord))) (fetch : FetchOracle),
      generate_image p r none msgs history fetch = some (false, none)) ∧
    (∀ (p : GenParams) (r : Int) (msgs : List WsMessage)
      (history : Option (List (String × HistoryRecord))) (fetch : FetchOracle),
      generate_image p r (some none) msgs history fetch =
        some (false, none)) ∧
    (∀ (p : GenParams) (r : Int) (prompt_id : String) (msgs : List WsMessage)
      (history : Option (List (String × HistoryRecord))) (fetch : FetchOracle)
      (i : Nat),
      watchLoop prompt_id msgs = some i →
      collectImages history prompt_id fetch = [] →
      generate_image p r (some (some prompt_id)) msgs history fetch =
        some (false, none)) := by
  refine ⟨fun _ _ _ _ _ => rfl, fun _ _ _ _ _ => rfl, ?_⟩
  intro p r prompt_id msgs history fetch i hw hempty
  simp [generate_image, getFinalImages, hw, hempty]

/-- Witness for C5: the amended theorem at concrete inputs. -/
theorem C5_failure_modes_collapse_witness :
    generate_image exampleParams 0 (some (some "J"))
        [WsMessage.text ⟨some "executing", none, some "J"⟩]
        (some [("J", ⟨[]⟩)]) (fun _ => none) = some (false, none) :=
  C5_failure_modes_collapse.2.2 exampleParams 0 "J"
    [WsMessage.text ⟨some "executing", none, some "J"⟩]
    (some [("J", ⟨[]⟩)]) (fun _ => none) 0 (by decide) (by decide)

/-- C6.  Building twice from the same template on one heap never mutates
the template: the fifteen template objects are unchanged afterwards
(including the placeholder seed 0, the placeholder checkpoint name, the
empty prompt texts and the default width), and the two builds produce two
distinct, independently parameterized graphs. -/
theorem C6_template_not_mutated (p1 p2 : GenParams) (r1 r2 : Int) :
    (buildTwice p1 p2 r1 r2).1.take 15 = templateStore ∧
    (buildTwice p1 p2 r1 r2).2.1 ≠ (buildTwice p1 p2 r1 r2).2.2 ∧
    readInput (buildTwice p1 p2 r1 r2).1 (buildTwice p1 p2 r1 r2).2.1
      "3" "seed" = some (PyVal.vint (chosenSeed p1 r1)) ∧
    readInput (buildTwice p1 p2 r1 r2).1 (buildTwice p1 p2 r1 r2).2.2
      "3" "seed" = some (PyVal.vint (chosenSeed p2 r2)) ∧
    readInput (buildTwice p1 p2 r1 r2).1 (buildTwice p1 p2 r1 r2).2.1
      "16" "text" = some (PyVal.vstr p1.positive_prompt) ∧
    readInput (buildTwice p1 p2 r1 r2).1 (buildTwice p1 p2 r1 r2).2.2
      "16" "text" = some (PyVal.vstr p2.positive_prompt) ∧
    readInput (buildTwice p1 p2 r1 r2).1 0 "3" "seed" =
      some (PyVal.vint 0) ∧
    readInput (buildTwice p1 p2 r1 r2).1 0 "4" "ckpt_name" =
      some (PyVal.vstr "model.safetensors") ∧
    readInput (buildTwice p1 p2 r1 r2).1 0 "16" "text" =
      some (PyVal.vstr "") ∧
    readInput (buildTwice p1 p2 r1 r2).1 0 "40" "text" =
      some (PyVal.vstr "") ∧
    readInput (buildTwice p1 p2 r1 r2).1 0 "53" "width" =
      some (PyVal.vint 1024) := by
  rw [buildTwice_eval]
  refine ⟨?_, by norm_num, ?_, ?_, ?_, ?_, ?_, ?_, ?_, ?_, ?_⟩
  · rw [List.append_assoc, takeTmplAppend]
  all_goals
    simp [readInput, inputsAddr, storeGet_append, storeGet, dictGet, lenTmpl,
      lenBuiltCopy, templateStore, builtCopyAt]

set_option maxHeartbeats 3000000 in
/-- C10.  The built job graph differs from the template only in the
parameterized slots.  Every non-parameterized input field — denoise and
the four sampler edge references, the decoder and saver inputs, the two
text-encoder clip edges, and batch_size — and every class_type tag reads
back from the built graph exactly as from the template, while the ten
parameterized slots hold the call arguments. -/
theorem C10_frame_condition (p : GenParams) (r : Int) :
    readInput (buildWorkflow templateStore 0 p r).1 (buildWorkflow templateStore 0 p r).2 "3" "denoise" =
      readInput templateStore 0 "3" "denoise" ∧
    readInput (buildWorkflow templateStore 0 p r).1 (buildWorkflow templateStore 0 p r).2 "3" "model" =
      readInput templateStore 0 "3" "model" ∧
    readInput (buildWorkflow templateStore 0 p r).1 (buildWorkflow templateStore 0 p r).2 "3" "positive" =
      readInput templateStore 0 "3" "positive" ∧
    readInput (buildWorkflow templateStore 0 p r).1 (buildWorkflow templateStore 0 p r).2 "3" "negative" =
      readInput templateStore 0 "3" "negative" ∧
    readInput (buildWorkflow templateStore 0 p r).1 (buildWorkflow templateStore 0 p r).2 "3" "latent_image" =
      readInput templateStore 0 "3" "latent_image" ∧
    readInput (buildWorkflow templateStore 0 p r).1 (buildWorkflow templateStore 0 p r).2 "8" "samples" =
      readInput templateStore 0 "8" "samples" ∧
    readInput (buildWorkflow templateStore 0 p r).1 (buildWorkflow templateStore 0 p r).2 "8" "vae" =
      readInput templateStore 0 "8" "vae" ∧
    readInput (buildWorkflow templateStore 0 p r).1 (buildWorkflow templateStore 0 p r).2 "9" "filename_prefix" =
      readInput templateStore 0 "9" "filename_prefix" ∧
    readInput (buildWorkflow templateStore 0 p r).1 (buildWorkflow templateStore 0 p r).2 "9" "images" =
      readInput templateStore 0 "9" "images" ∧
    readInput (buildWorkflow templateStore 0 p r).1 (buildWorkflow templateStore 0 p r).2 "16" "clip" =
      readInput templateStore 0 "16" "clip" ∧
    readInput (buildWorkflow templateStore 0 p r).1 (buildWorkflow templateStore 0 p r).2 "40" "clip" =
      readInput templateStore 0 "40" "clip" ∧
    readInput (buildWorkflow templateStore 0 p r).1 (buildWorkflow templateStore 0 p r).2 "53" "batch_size" =
      readInput templateStore 0 "53" "batch_size" ∧
    readClassType (buildWorkflow templateStore 0 p r).1 (buildWorkflow templateStore 0 p r).2 "3" =
      readClassType templateStore 0 "3" ∧
    readClassType (buildWorkflow templateStore 0 p r).1 (buildWorkflow templateStore 0 p r).2 "4" =
      readClassType templateStore 0 "4" ∧
    readClassType (buildWorkflow templateStore 0 p r).1 (buildWorkflow templateStore 0 p r).2 "8" =
      readClassType templateStore 0 "8" ∧
    readClassType (buildWorkflow templateStore 0 p r).1 (buildWorkflow templateStore 0 p r).2 "9" =
      readClassType templateStore 0 "9" ∧
    readClassType (buildWorkflow templateStore 0 p r).1 (buildWorkflow templateStore 0 p r).2 "16" =
      readClassType templateStore 0 "16" ∧
    readClassType (buildWorkflow templateStore 0 p r).1 (buildWorkflow templateStore 0 p r).2 "40" =
      readClassType templateStore 0 "40" ∧
    readClassType (buildWorkflow templateStore 0 p r).1 (buildWorkflow templateStore 0 p r).2 "53" =
      readClassType templateStore 0 "53" ∧
    readInput (buildWorkflow templateStore 0 p r).1 (buildWorkflow templateStore 0 p r).2 "4" "ckpt_name" =
      some (PyVal.vstr p.model_name) ∧
    readInput (buildWorkflow templateStore 0 p r).1 (buildWorkflow templateStore 0 p r).2 "16" "text" =
      some (PyVal.vstr p.positive_prompt) ∧
    readInput (buildWorkflow templateStore 0 p r).1 (buildWorkflow templateStore 0 p r).2 "40" "text" =
      some (PyVal.vstr p.negative_prompt) ∧
    readInput (buildWorkflow templateStore 0 p r).1 (buildWorkflow templateStore 0 p r).2 "53" "width" =
      some (PyVal.vint p.width) ∧
    readInput (buildWorkflow templateStore 0 p r).1 (buildWorkflow templateStore 0 p r).2 "53" "height" =
      some (PyVal.vint p.height) ∧
    readInput (buildWorkflow templateStore 0 p r).1 (buildWorkflow templateStore 0 p r).2 "3" "seed" =
      some (PyVal.vint (chosenSeed p r)) ∧
    readInput (buildWorkflow templateStore 0 p r).1 (buildWorkflow templateStore 0 p r).2 "3" "steps" =
      some (PyVal.vint p.steps) ∧
    readInput (buildWorkflow templateStore 0 p r).1 (buildWorkflow templateStore 0 p r).2 "3" "cfg" =
      some (PyVal.vrat p.cfg) ∧
    readInput (buildWorkflow templateStore 0 p r).1 (buildWorkflow templateStore 0 p r).2 "3" "sampler_name" =
      some (PyVal.vstr p.sampler_name) ∧
    readInput (buildWorkflow templateStore 0 p r).1 (buildWorkflow templateStore 0 p r).2 "3" "scheduler" =
      some (PyVal.vstr p.scheduler) := by
  refine ⟨?_, ?_, ?_, ?_, ?_, ?_, ?_, ?_, ?_, ?_, ?_, ?_, ?_, ?_, ?_, ?_, ?_, ?_, ?_, ?_, ?_, ?_, ?_, ?_, ?_, ?_, ?_, ?_, ?_⟩ <;>
  · rw [build1_eval]
    simp [readInput, readClassType, inputsAddr, storeGet_append, storeGet,
      dictGet, lenTmpl, templateStore, builtCopyAt]
